import Mathlib

/-!
Verification of the backlight-PWM and button-input subsystems of
"displayhatmini_lite" (Pimoroni Display HAT Mini driver).

The embedding translates `src/displayhatmini_lite/__init__.py`:
`KernelPWM` becomes a state machine over an explicit sysfs model `Fs`
(directory existence, permission flags and file contents), with every
`_write` attempt recorded in a trace of `WriteEv` events; fallible
Python calls become `Except PyErr`.  `DisplayHATMini` keeps the
source's backlight-selection flags, the optional `KernelPWM` object,
the software-PWM duty value, the plain GPIO backlight level, and the
button-observer registration state.  The example polling debounce loop
of `examples/pwm_kernel_test.py` is embedded as `pollStep`/`pollRun`.

Python numeric notes, checked once here: `int(1_000_000_000 / freq_hz)`
is float true division followed by truncation; for every frequency the
repository ever passes (the FREQUENCIES lists and the fixed 2000 Hz)
the result equals truncating natural division, which is how it is
embedded (the spec's glossary states the same identity); `freq_hz == 0`
raises `ZeroDivisionError` in Python, embedded as the
`PyErr.zeroDivision` error case.  Brightness/duty values are embedded
as rationals; every concrete value the claims use (0.5, 100, 1.5) is an
exact binary float, so the rational model agrees with Python floats at
those points.  `int()` truncation toward zero is `pyInt`.

Periphery not observed by any claim (SPI/display initialisation, the
RGB status LED, `atexit` registration, image drawing) is outside the
embedding, as the specification also scopes it out.
-/

namespace DisplayHatMiniLite

/-- Python exception kinds that the embedded code can raise. -/
inductive PyErr where
  | ioError
  | valueError
  | zeroDivision
  | runtimeError
deriving DecidableEq, Repr

/-- The five sysfs file names the driver ever writes: the three files
of the channel directory, and the chip-level export/unexport files
(the source passes them as string literals; the finite set is embedded
as an enumeration). -/
inductive SysFile where
  | period
  | duty_cycle
  | enable
  | exportCh
  | unexportCh
deriving DecidableEq, Repr

/-- One attempted sysfs write: target file, the value written, and
whether the write succeeded. -/
structure WriteEv where
  file : SysFile
  value : Int
  ok : Bool
deriving DecidableEq, Repr

/-- Model of the kernel PWM sysfs control surface for the single
chip/channel pair the driver uses: whether the pwmchip directory
exists, whether the channel directory `pwmN` currently exists
(created by a successful export, removed by a successful unexport),
permission flags for chip-level and channel-level files, and the
contents of the three channel files. -/
structure Fs where
  chipExists : Bool
  pwmDirExists : Bool
  exportOk : Bool
  pwmWritable : Bool
  periodFile : Int
  dutyFile : Int
  enableFile : Int
deriving DecidableEq, Repr

/-- World state threaded through every operation: the filesystem model
plus the trace of attempted writes (verification instrumentation; the
program itself does not observe the trace). -/
structure W where
  fs : Fs
  trace : List WriteEv
deriving DecidableEq, Repr

/-- A write to a channel-level sysfs file: succeeds iff the channel
directory exists and is writable; on success the file content is
updated. -/
def Fs.writePwm (fs : Fs) (file : SysFile) (v : Int) : Bool × Fs :=
  if fs.pwmDirExists && fs.pwmWritable then
    (true,
      match file with
      | SysFile.period => { fs with periodFile := v }
      | SysFile.duty_cycle => { fs with dutyFile := v }
      | SysFile.enable => { fs with enableFile := v }
      | _ => fs)
  else (false, fs)

/-- Python `int(q)`: truncation of a rational toward zero (numerator
and denominator of a `Rat` are already reduced and the denominator is
positive, so truncated integer division of them is truncation of `q`). -/
def pyInt (q : ℚ) : Int := q.num.tdiv q.den

/-- `KernelPWM` object state: the fields set in `KernelPWM.__init__`.
The two path strings are determined by `chip`/`channel` and are
represented by the `Fs` model rather than stored. -/
structure KernelPWM where
  chip : Nat
  channel : Nat
  _exported : Bool
  _period_ns : Nat
  _enabled : Bool
deriving DecidableEq, Repr

namespace KernelPWM

/-- `KernelPWM(chip, channel)`: created unexported, no period, disabled. -/
def init (chip channel : Nat) : KernelPWM :=
  { chip := chip, channel := channel,
    _exported := false, _period_ns := 0, _enabled := false }

/-- `KernelPWM._write`: try to write a value to a channel sysfs file,
returning `True` on success and `False` on `IOError`/`OSError`
(the exception is caught inside `_write`, so `_write` never raises).
Every attempt is recorded in the trace. -/
def _write (_s : KernelPWM) (w : W) (file : SysFile) (v : Int) : Bool × W :=
  let r := w.fs.writePwm file v
  (r.1, { fs := r.2, trace := w.trace ++ [⟨file, v, r.1⟩] })

/-- `KernelPWM._export`: if the channel directory does not exist, write
the channel number to the chip's export file (success creates the
directory; `IOError`/`OSError` makes `_export` return `False` with
`_exported` unchanged).  When the directory exists, or the export write
succeeded, set `_exported = True` and return `True`. -/
def _export (s : KernelPWM) (w : W) : Bool × KernelPWM × W :=
  if w.fs.pwmDirExists then
    (true, { s with _exported := true }, w)
  else if w.fs.chipExists && w.fs.exportOk then
    (true, { s with _exported := true },
      { fs := { w.fs with pwmDirExists := true },
        trace := w.trace ++ [⟨SysFile.exportCh, (s.channel : Int), true⟩] })
  else
    (false, s, { w with trace := w.trace ++ [⟨SysFile.exportCh, (s.channel : Int), false⟩] })

/-- `KernelPWM.set_frequency`: `period_ns = int(1_000_000_000 / freq_hz)`.
In Python `freq_hz == 0` raises `ZeroDivisionError` at the division,
before anything is written; otherwise, if currently enabled, a
best-effort `enable = 0` write is issued first (its result is ignored
and `_enabled` is not updated), then the period is written and
`_period_ns` stored regardless of the write's success. -/
def set_frequency (s : KernelPWM) (w : W) (freq_hz : Nat) :
    Except PyErr (KernelPWM × W) :=
  if freq_hz = 0 then Except.error PyErr.zeroDivision
  else
    let period_ns : Nat := 1000000000 / freq_hz
    let w1 := if s._enabled then (s._write w SysFile.enable 0).2 else w
    let w2 := (s._write w1 SysFile.period (period_ns : Int)).2
    Except.ok ({ s with _period_ns := period_ns }, w2)

/-- `KernelPWM.set_duty_cycle`: when a period has been configured,
compute `duty_ns = int(period_ns * duty_percent / 100)` and write it;
otherwise do nothing at all. -/
def set_duty_cycle (s : KernelPWM) (w : W) (duty_percent : ℚ) :
    KernelPWM × W :=
  if 0 < s._period_ns then
    let duty_ns : Int := pyInt ((s._period_ns : ℚ) * duty_percent / 100)
    (s, (s._write w SysFile.duty_cycle duty_ns).2)
  else (s, w)

/-- `KernelPWM.enable`: write `1` to the enable file and set `_enabled`
only if that write succeeded; a failed write leaves the flag unchanged
and raises nothing. -/
def enable (s : KernelPWM) (w : W) : KernelPWM × W :=
  let r := s._write w SysFile.enable 1
  (if r.1 then { s with _enabled := true } else s, r.2)

/-- `KernelPWM.disable`: write `0` to the enable file and clear
`_enabled` only if that write succeeded. -/
def disable (s : KernelPWM) (w : W) : KernelPWM × W :=
  let r := s._write w SysFile.enable 0
  (if r.1 then { s with _enabled := false } else s, r.2)

/-- `KernelPWM.cleanup`: when `_exported`, disable (which cannot raise)
and then write the channel number to the chip's unexport file; any
`IOError`/`OSError` from the unexport write is swallowed by the
surrounding `try`/`except`, so `cleanup` never raises.  The unexport
write succeeds iff the chip files are accessible and the channel is
currently exported (writing a non-exported channel number is an error
at the kernel level); success removes the channel directory.
`_exported` is never cleared. -/
def cleanup (s : KernelPWM) (w : W) : KernelPWM × W :=
  if s._exported then
    let r := s.disable w
    if r.2.fs.chipExists && r.2.fs.exportOk && r.2.fs.pwmDirExists then
      (r.1, { fs := { r.2.fs with pwmDirExists := false },
              trace := r.2.trace ++ [⟨SysFile.unexportCh, (r.1.channel : Int), true⟩] })
    else
      (r.1, { r.2 with trace := r.2.trace ++ [⟨SysFile.unexportCh, (r.1.channel : Int), false⟩] })
  else (s, w)

/-- `KernelPWM.is_available`: the pwmchip directory exists. -/
def is_available (fs : Fs) : Bool := fs.chipExists

end KernelPWM

/-- Successful unexport writes recorded in a trace (used to state that
cleanup never actually releases the channel twice). -/
def unexportOkCount (tr : List WriteEv) : Nat :=
  (tr.filter (fun e => decide (e.file = SysFile.unexportCh) && e.ok)).length

/-- Class constants of `DisplayHATMini` used by the embedded paths. -/
def BUTTON_A : Nat := 5
def BUTTON_B : Nat := 6
def BUTTON_X : Nat := 16
def BUTTON_Y : Nat := 24
def BACKLIGHT_PWM_FREQ : Nat := 2000
def PWM_CHIP : Nat := 0
def PWM_CHANNEL : Nat := 1

/-- The four button pins iterated by `on_button_pressed`. -/
def buttons : List Nat := [BUTTON_A, BUTTON_B, BUTTON_X, BUTTON_Y]

/-- `DisplayHATMini` object state relevant to the backlight and button
subsystems: the source's backlight flags (`_backlight_pwm_enabled`,
`_using_kernel_pwm`), the optional `KernelPWM` object (`_kernel_pwm`),
the software-PWM fallback represented by its current duty percentage
(`_backlight_pwm`, `none` when no `GPIO.PWM` object was created), the
registered observer callback (`_button_callback`, callbacks identified
by numeric ids), the per-pin GPIO edge-detection registration state,
and the level of the backlight line when driven as a plain output. -/
structure DisplayHATMini where
  _backlight_pwm_enabled : Bool
  _using_kernel_pwm : Bool
  _kernel_pwm : Option KernelPWM
  _backlight_pwm : Option ℚ
  _button_callback : Option Nat
  eventDetect : Nat → Bool
  backlightLine : Option Bool

namespace DisplayHATMini

/-- `DisplayHATMini.__init__`, backlight part.  With `backlight_pwm`
requested: if the pwmchip directory exists, construct a `KernelPWM`
for chip 0 / channel 1 and export it; on success set the 2000 Hz
frequency, 100% duty, enable, and mark `_using_kernel_pwm`; if the
export returned `False`, `_kernel_pwm` keeps the object but software
PWM is started at 100% duty; the `except Exception` arm (unreachable
here, since `set_frequency(2000)` cannot raise) resets `_kernel_pwm`
to `None` and also falls back to software PWM.  Without
`backlight_pwm`, the backlight line is configured as a plain output
and driven high. -/
def init (backlight_pwm : Bool) (w : W) : DisplayHATMini × W :=
  let d0 : DisplayHATMini :=
    { _backlight_pwm_enabled := backlight_pwm, _using_kernel_pwm := false,
      _kernel_pwm := none, _backlight_pwm := none, _button_callback := none,
      eventDetect := fun _ => false, backlightLine := none }
  if backlight_pwm then
    if KernelPWM.is_available w.fs then
      let k0 := KernelPWM.init PWM_CHIP PWM_CHANNEL
      match k0._export w with
      | (true, k1, w1) =>
        match k1.set_frequency w1 BACKLIGHT_PWM_FREQ with
        | Except.ok (k2, w2) =>
          let r3 := k2.set_duty_cycle w2 100
          let r4 := r3.1.enable r3.2
          ({ d0 with _kernel_pwm := some r4.1, _using_kernel_pwm := true }, r4.2)
        | Except.error _ =>
          ({ d0 with _kernel_pwm := none, _backlight_pwm := some 100 }, w1)
      | (false, k1, w1) =>
        ({ d0 with _kernel_pwm := some k1, _backlight_pwm := some 100 }, w1)
    else ({ d0 with _backlight_pwm := some 100 }, w)
  else ({ d0 with backlightLine := some true }, w)

/-- `DisplayHATMini.set_backlight`: raise `ValueError` (before touching
any backend) unless `0.0 <= value <= 1.0`; then dispatch on
`_using_kernel_pwm and self._kernel_pwm` to the kernel channel
(`set_duty_cycle(value * 100)`), else to the software PWM object
(`ChangeDutyCycle(value * 100)`), else drive the plain line high iff
`value > 0`. -/
def set_backlight (d : DisplayHATMini) (w : W) (value : ℚ) :
    Except PyErr (DisplayHATMini × W) :=
  if 0 ≤ value ∧ value ≤ 1 then
    match d._using_kernel_pwm, d._kernel_pwm with
    | true, some k =>
      let r := k.set_duty_cycle w (value * 100)
      Except.ok ({ d with _kernel_pwm := some r.1 }, r.2)
    | _, _ =>
      match d._backlight_pwm with
      | some _ => Except.ok ({ d with _backlight_pwm := some (value * 100) }, w)
      | none => Except.ok ({ d with backlightLine := some (decide (0 < value)) }, w)
  else Except.error PyErr.valueError

end DisplayHATMini

/-- `GPIO.remove_event_detect(pin)` wrapped in `try`/`except
RuntimeError`: after it, no edge detection is registered on `pin`
(a `RuntimeError` from removing a non-registered pin is swallowed). -/
def gpioRemoveEvent (d : DisplayHATMini) (pin : Nat) : DisplayHATMini :=
  { d with eventDetect := fun p => if p = pin then false else d.eventDetect p }

/-- `GPIO.add_event_detect(pin, ...)`: RPi.GPIO allows at most one edge
detection per pin and raises `RuntimeError` if one is already
registered; otherwise registers detection (the installed handler is
always the bound method `self._handle_button`). -/
def gpioAddEvent (d : DisplayHATMini) (pin : Nat) : Except PyErr DisplayHATMini :=
  if d.eventDetect pin then Except.error PyErr.runtimeError
  else Except.ok { d with eventDetect := fun p => if p = pin then true else d.eventDetect p }

namespace DisplayHATMini

/-- `DisplayHATMini.on_button_pressed`: store the callback, then for
each button pin remove any existing event detection (errors swallowed)
and add edge detection for both edges with the shared handler. -/
def on_button_pressed (d : DisplayHATMini) (cb : Nat) : Except PyErr DisplayHATMini :=
  let d1 := { d with _button_callback := some cb }
  buttons.foldlM (fun acc pin => gpioAddEvent (gpioRemoveEvent acc pin) pin) d1

/-- `DisplayHATMini._handle_button`: invoke the registered callback,
if any, once with the pin.  The result lists the callback invocations
the event produced. -/
def _handle_button (d : DisplayHATMini) (_pin : Nat) : List Nat :=
  match d._button_callback with
  | some cb => [cb]
  | none => []

end DisplayHATMini

/-- Delivery of one accepted raw edge on `pin`: the GPIO layer invokes
the installed handler only when edge detection is registered on that
pin; the handler then forwards to the registered observer. -/
def deliverEdge (d : DisplayHATMini) (pin : Nat) : List Nat :=
  if d.eventDetect pin then d._handle_button pin else []

/-- The state `on_button_pressed` leaves behind (it is proved below
that registration always returns `Except.ok` of exactly this state). -/
def afterReg (d : DisplayHATMini) (cb : Nat) : DisplayHATMini :=
  (d.on_button_pressed cb).toOption.getD d

/-- Debounce window of the example's polling loop (milliseconds). -/
def debounce_ms : Int := 200

/-- One iteration of the per-button debounce check in
`examples/pwm_kernel_test.py`: a pressed read is accepted iff more
than `debounce_ms` elapsed since the last accepted one; acceptance
stamps `last_press` with the current time. -/
def pollStep (last_press : Int) (now : Int) (pressed : Bool) : Bool × Int :=
  if pressed && decide (now - last_press > debounce_ms) then (true, now)
  else (false, last_press)

/-- Run the polling debounce over a sequence of (timestamp, pressed)
line reads for one button, counting the accepted (delivered)
transitions. -/
def pollRun (last_press : Int) (evs : List (Int × Bool)) : Nat × Int :=
  evs.foldl
    (fun acc ev =>
      let r := pollStep acc.2 ev.1 ev.2
      (acc.1 + (if r.1 then 1 else 0), r.2))
    (0, last_press)

/-- The backend tiers of the specified `BacklightController`. -/
inductive Backend where
  | daemon
  | kernelPwm
  | softwarePwm
  | switch
deriving DecidableEq, Repr

/-- The capability vector probed at construction. -/
structure Caps where
  daemonReachable : Bool
  kernelSurfacePresent : Bool
deriving DecidableEq, Repr

/-- Modelled from the spec: the `BacklightController` backend-selection
algorithm (spec, section 4.3).  The daemon tier (`PwmDaemonClient`,
tried first) is not part of the code under `src/`; only a standalone
caller of the pigpio daemon exists there (`examples/pwm_test.py`), so
the daemon leg follows the spec's words: with dimming requested, a
reachable daemon wins, else a present kernel surface, else software
PWM; without dimming, the `Switch` backend is chosen directly. -/
def selectBackend (dimming : Bool) (c : Caps) : Backend :=
  if dimming then
    if c.daemonReachable then Backend.daemon
    else if c.kernelSurfacePresent then Backend.kernelPwm
    else Backend.softwarePwm
  else Backend.switch

/-- The backend tier actually active in a constructed `DisplayHATMini`,
read off the source's own flags: `_using_kernel_pwm` marks the kernel
tier, a created `_backlight_pwm` object marks software PWM, and
otherwise the plain on/off switch drives the line. -/
def backendOf (d : DisplayHATMini) : Backend :=
  if d._using_kernel_pwm then Backend.kernelPwm
  else if d._backlight_pwm.isSome then Backend.softwarePwm
  else Backend.switch

/-- Modelled from the spec: `ResourceError` kinds (spec, section 7). -/
inductive ResourceError where
  | unavailable
  | notConfigured
  | transientErr
deriving DecidableEq, Repr

/-- Modelled from the spec: `enable()` before any period configuration
must signal `ResourceError.notConfigured` (spec, sections 4.1 and 7);
compared below with the source's `KernelPWM.enable`, which has no such
check. -/
def specEnable (s : KernelPWM) : Except ResourceError KernelPWM :=
  if s._period_ns = 0 then Except.error ResourceError.notConfigured
  else Except.ok { s with _enabled := true }

/-- A ready filesystem: chip present, channel already exported, all
writes permitted, files zeroed. -/
def fsReady : Fs :=
  { chipExists := true, pwmDirExists := true, exportOk := true,
    pwmWritable := true, periodFile := 0, dutyFile := 0, enableFile := 0 }

/-- World with `fsReady` and an empty trace. -/
def wReady : W := { fs := fsReady, trace := [] }

/-- A fresh filesystem: chip present but channel not yet exported. -/
def fs0 : Fs := { fsReady with pwmDirExists := false }

/-- World with `fs0` and an empty trace. -/
def w0 : W := { fs := fs0, trace := [] }

/-- A controller constructed without dimming (switch backend). -/
def dEx : DisplayHATMini := (DisplayHATMini.init false w0).1

/-- An exported, enabled channel, as left by a successful construction. -/
def kExp : KernelPWM :=
  { chip := 0, channel := 1, _exported := true, _period_ns := 500000,
    _enabled := true }

/-- C2: for every brightness value outside [0, 1], `set_backlight`
fails validation with the out-of-range `ValueError` before dispatching
to any backend, so no write is attempted and backend state is
unchanged (the error is returned with nothing mutated: validation is
the first statement of the method). -/
theorem set_backlight_rejects_out_of_range (d : DisplayHATMini) (w : W) (v : ℚ)
    (h : v < 0 ∨ 1 < v) :
    d.set_backlight w v = Except.error PyErr.valueError := by
  have hn : ¬ (0 ≤ v ∧ v ≤ 1) := by
    rcases h with h | h
    · exact fun hc => absurd hc.1 (not_le.mpr h)
    · exact fun hc => absurd hc.2 (not_le.mpr h)
  simp [DisplayHATMini.set_backlight, hn]

/-- C2 witness: `set_backlight(1.5)` on a concrete controller is
rejected. -/
theorem set_backlight_rejects_out_of_range_witness :
    ((3 : ℚ)/2 < 0 ∨ 1 < (3 : ℚ)/2)
    ∧ dEx.set_backlight w0 ((3 : ℚ)/2) = Except.error PyErr.valueError :=
  ⟨Or.inr (by norm_num),
    set_backlight_rejects_out_of_range dEx w0 ((3 : ℚ)/2) (Or.inr (by norm_num))⟩

/-- C4 (amended): `enable()` before any period has been configured
signals no error at all: the method's type is total because `_write`
swallows `IOError`/`OSError`; it attempts the enable write, sets the
`_enabled` flag only if that write succeeds, and leaves the period
unconfigured. -/
theorem enable_unconfigured_no_error (s : KernelPWM) (w : W)
    (h : s._period_ns = 0) :
    (KernelPWM.enable s w).1._enabled
        = (w.fs.pwmDirExists && w.fs.pwmWritable || s._enabled)
    ∧ (KernelPWM.enable s w).1._period_ns = 0
    ∧ (KernelPWM.enable s w).2.trace
        = w.trace ++ [⟨SysFile.enable, 1, w.fs.pwmDirExists && w.fs.pwmWritable⟩] := by
  rcases w with ⟨⟨ce, de, eo, pw, pf, df, ef⟩, tr⟩
  rcases s with ⟨c1, c2, ex, per, en⟩
  cases de <;> cases pw <;>
    simp_all [KernelPWM.enable, KernelPWM._write, Fs.writePwm]

/-- C4 witness: enabling a freshly constructed (period-unconfigured)
channel on a ready filesystem. -/
theorem enable_unconfigured_no_error_witness :
    (KernelPWM.init 0 1)._period_ns = 0
    ∧ ((KernelPWM.enable (KernelPWM.init 0 1) wReady).1._enabled
          = (wReady.fs.pwmDirExists && wReady.fs.pwmWritable
              || (KernelPWM.init 0 1)._enabled)
        ∧ (KernelPWM.enable (KernelPWM.init 0 1) wReady).1._period_ns = 0
        ∧ (KernelPWM.enable (KernelPWM.init 0 1) wReady).2.trace
          = wReady.trace
              ++ [⟨SysFile.enable, 1, wReady.fs.pwmDirExists && wReady.fs.pwmWritable⟩]) :=
  ⟨rfl, enable_unconfigured_no_error (KernelPWM.init 0 1) wReady rfl⟩

/-- C4 counterexample: the claim says `enable()` before a period is
configured signals `ResourceError.notConfigured`; the spec-modelled
`specEnable` does exactly that on the fresh channel, but the source's
`enable` signals nothing: on a ready filesystem it happily performs
the enable write and sets `_enabled` with the period still
unconfigured. -/
theorem enable_unconfigured_signals_nothing :
    specEnable (KernelPWM.init 0 1) = Except.error ResourceError.notConfigured
    ∧ (KernelPWM.enable (KernelPWM.init 0 1) wReady).1
        = { KernelPWM.init 0 1 with _enabled := true }
    ∧ (KernelPWM.enable (KernelPWM.init 0 1) wReady).2.trace
        = [⟨SysFile.enable, 1, true⟩] :=
  ⟨rfl, rfl, rfl⟩

/-- C5 (amended): `set_frequency(0)` fails with `ZeroDivisionError`
raised by the period computation itself, before anything is written
(the error return means the channel state and filesystem are untouched
in the caller's hands); there is no input-validation rejection in the
code. -/
theorem set_frequency_zero_raises_zero_division (s : KernelPWM) (w : W) :
    s.set_frequency w 0 = Except.error PyErr.zeroDivision := by
  simp [KernelPWM.set_frequency]

/-- C5 counterexample: the claim says `freq_hz == 0` is rejected as an
invalid input "rather than performing a division by zero"; at the
concrete call the failure is precisely Python's `ZeroDivisionError`
from performing `1_000_000_000 / 0`, which is not the validation
error. -/
theorem set_frequency_zero_not_validation_cex :
    KernelPWM.set_frequency (KernelPWM.init 0 1) wReady 0
        = Except.error PyErr.zeroDivision
    ∧ PyErr.zeroDivision ≠ PyErr.valueError :=
  ⟨rfl, by decide⟩

/-- C6: `set_duty_cycle` called before any period has been configured
is a complete no-op: the guard `period_ns > 0` fails, so no write is
attempted, no error is raised and the state (including the trace) is
returned unchanged. -/
theorem set_duty_cycle_noop_without_period (s : KernelPWM) (w : W) (p : ℚ)
    (h : s._period_ns = 0) :
    s.set_duty_cycle w p = (s, w) := by
  simp [KernelPWM.set_duty_cycle, h]

/-- C6 witness: a duty write on a fresh channel does nothing. -/
theorem set_duty_cycle_noop_without_period_witness :
    (KernelPWM.init 0 1)._period_ns = 0
    ∧ KernelPWM.set_duty_cycle (KernelPWM.init 0 1) wReady 37
        = (KernelPWM.init 0 1, wReady) :=
  ⟨rfl, set_duty_cycle_noop_without_period (KernelPWM.init 0 1) wReady 37 rfl⟩

/-- C10: the `_enabled` flag tracks only successful writes: after
`enable()` it is set iff the enable write succeeded (else it keeps its
old value), after `disable()` it is cleared iff the write succeeded
(else it keeps its old value), and neither call touches `_exported`
or `_period_ns` (a write succeeds exactly when the channel directory
exists and is writable). -/
theorem enabled_flag_tracks_write_success (s : KernelPWM) (w : W) :
    (KernelPWM.enable s w).1._enabled
        = (w.fs.pwmDirExists && w.fs.pwmWritable || s._enabled)
    ∧ (KernelPWM.disable s w).1._enabled
        = (!(w.fs.pwmDirExists && w.fs.pwmWritable) && s._enabled)
    ∧ (KernelPWM.enable s w).1._exported = s._exported
    ∧ (KernelPWM.enable s w).1._period_ns = s._period_ns
    ∧ (KernelPWM.disable s w).1._exported = s._exported
    ∧ (KernelPWM.disable s w).1._period_ns = s._period_ns := by
  rcases w with ⟨⟨ce, de, eo, pw, pf, df, ef⟩, tr⟩
  rcases s with ⟨c1, c2, ex, per, en⟩
  cases de <;> cases pw <;>
    simp [KernelPWM.enable, KernelPWM.disable, KernelPWM._write, Fs.writePwm]

/-- C1: backend selection at construction is a pure function of the
capability vector, so it is deterministic: the backend the source
constructor chooses equals the spec-modelled `selectBackend` applied
to (daemon reachable = false, kernel surface present = the chip
directory exists and the channel directory exists or can be created);
the daemon tier of the priority order wins whenever a daemon is
reachable; and when dimming is not requested the `Switch` backend is
chosen directly with the backlight line driven high at construction. -/
theorem backend_selection_deterministic (dim b : Bool) (w : W) :
    backendOf (DisplayHATMini.init dim w).1
        = selectBackend dim
            ⟨false, w.fs.chipExists && (w.fs.pwmDirExists || w.fs.exportOk)⟩
    ∧ selectBackend true ⟨true, b⟩ = Backend.daemon
    ∧ (DisplayHATMini.init false w).1.backlightLine = some true := by
  refine ⟨?_, rfl, rfl⟩
  rcases w with ⟨⟨ce, de, eo, pw, pf, df, ef⟩, tr⟩
  cases dim <;> cases ce <;> cases de <;> cases eo <;>
    simp [DisplayHATMini.init, KernelPWM.is_available, KernelPWM._export,
      KernelPWM.init, KernelPWM.set_frequency, KernelPWM.set_duty_cycle,
      KernelPWM.enable, KernelPWM._write, Fs.writePwm, backendOf,
      selectBackend, BACKLIGHT_PWM_FREQ, PWM_CHIP, PWM_CHANNEL]

/-- C3: with dimming requested on a filesystem where the kernel
surface for chip 0 / channel 1 is present (and no daemon exists to
reach in this code), construction selects the kernel PWM backend, the
2000 Hz frequency yields `period_ns = 500000`, and a subsequent
`set_backlight(0.5)` issues exactly one further write: `duty_cycle`
= 250000. -/
theorem kernel_scenario_2000hz :
    (DisplayHATMini.init true w0).1._using_kernel_pwm = true
    ∧ Option.map KernelPWM._period_ns (DisplayHATMini.init true w0).1._kernel_pwm
        = some 500000
    ∧ (DisplayHATMini.set_backlight (DisplayHATMini.init true w0).1
          (DisplayHATMini.init true w0).2 (1/2)).map (fun p => p.2.trace)
      = Except.ok
          [⟨SysFile.exportCh, 1, true⟩, ⟨SysFile.period, 500000, true⟩,
           ⟨SysFile.duty_cycle, 500000, true⟩, ⟨SysFile.enable, 1, true⟩,
           ⟨SysFile.duty_cycle, 250000, true⟩] := by
  refine ⟨rfl, rfl, ?_⟩
  have hv : ((0:ℚ) ≤ 1/2 ∧ (1/2:ℚ) ≤ 1) := by norm_num
  norm_num [DisplayHATMini.init, DisplayHATMini.set_backlight, KernelPWM.init,
    KernelPWM._export, KernelPWM.set_frequency, KernelPWM.set_duty_cycle,
    KernelPWM.enable, KernelPWM._write, Fs.writePwm, KernelPWM.is_available,
    w0, fs0, fsReady, hv, pyInt, BACKLIGHT_PWM_FREQ, PWM_CHIP, PWM_CHANNEL,
    Int.tdiv_one, Except.map]

/-- C7: `cleanup()` is idempotent from any state: a second call leaves
the channel object and the filesystem exactly as the first left them,
performs no further successful unexport (so the channel is never
released twice), and raises nothing (the method is total: `disable`
cannot raise and the unexport write is wrapped in `try`/`except`);
in the normal teardown scenario the end state after one call is
output disabled and channel unexported. -/
theorem cleanup_idempotent (s : KernelPWM) (w : W) :
    ((KernelPWM.cleanup (KernelPWM.cleanup s w).1 (KernelPWM.cleanup s w).2).1
        = (KernelPWM.cleanup s w).1
      ∧ (KernelPWM.cleanup (KernelPWM.cleanup s w).1 (KernelPWM.cleanup s w).2).2.fs
        = (KernelPWM.cleanup s w).2.fs)
    ∧ unexportOkCount
        (KernelPWM.cleanup (KernelPWM.cleanup s w).1 (KernelPWM.cleanup s w).2).2.trace
      = unexportOkCount (KernelPWM.cleanup s w).2.trace
    ∧ ((KernelPWM.cleanup kExp wReady).1._enabled = false
        ∧ (KernelPWM.cleanup kExp wReady).2.fs.pwmDirExists = false
        ∧ (KernelPWM.cleanup kExp wReady).2.fs.enableFile = 0) := by
  have key :
      ((KernelPWM.cleanup (KernelPWM.cleanup s w).1 (KernelPWM.cleanup s w).2).1
          = (KernelPWM.cleanup s w).1
        ∧ (KernelPWM.cleanup (KernelPWM.cleanup s w).1 (KernelPWM.cleanup s w).2).2.fs
          = (KernelPWM.cleanup s w).2.fs)
      ∧ unexportOkCount
          (KernelPWM.cleanup (KernelPWM.cleanup s w).1 (KernelPWM.cleanup s w).2).2.trace
        = unexportOkCount (KernelPWM.cleanup s w).2.trace := by
    rcases w with ⟨⟨ce, de, eo, pw, pf, df, ef⟩, tr⟩
    rcases s with ⟨c1, c2, ex, per, en⟩
    cases ex <;> cases ce <;> cases de <;> cases eo <;> cases pw <;> cases en <;>
      simp [KernelPWM.cleanup, KernelPWM.disable, KernelPWM._write, Fs.writePwm,
        unexportOkCount, List.filter_append]
  exact ⟨key.1, key.2, rfl, rfl, rfl⟩

/-- C8: registering the button observer always succeeds (each line's
existing edge detection is removed before the new one is added, so
`add_event_detect` never hits an already-registered line), stores the
new callback in the single observer slot (replacing, never stacking,
any previous one), registers detection on every button pin, and an
accepted edge on a button pin is delivered exactly once, to the
currently registered observer only. -/
theorem observer_registration_replaces (d : DisplayHATMini) (cb pin : Nat)
    (hpin : pin ∈ buttons) :
    d.on_button_pressed cb = Except.ok (afterReg d cb)
    ∧ (afterReg d cb)._button_callback = some cb
    ∧ (afterReg d cb).eventDetect pin = true
    ∧ deliverEdge (afterReg d cb) pin = [cb]
    ∧ (deliverEdge d pin).length ≤ 1 := by
  simp only [buttons, BUTTON_A, BUTTON_B, BUTTON_X, BUTTON_Y, List.mem_cons,
    List.not_mem_nil, or_false] at hpin
  unfold afterReg deliverEdge DisplayHATMini.on_button_pressed
    DisplayHATMini._handle_button
  rcases hpin with rfl | rfl | rfl | rfl <;>
    simp [buttons, BUTTON_A, BUTTON_B, BUTTON_X, BUTTON_Y, List.foldlM,
      gpioAddEvent, gpioRemoveEvent, Except.toOption, Bind.bind, Except.bind,
      Pure.pure, Except.pure, Option.getD] <;>
    rcases d._button_callback with _ | c <;> split <;> simp

/-- C8 witness: re-registering (callback 7 over the already-registered
callback 3) on button A. -/
theorem observer_registration_replaces_witness :
    (5 : Nat) ∈ buttons
    ∧ ((afterReg dEx 3).on_button_pressed 7
          = Except.ok (afterReg (afterReg dEx 3) 7)
        ∧ (afterReg (afterReg dEx 3) 7)._button_callback = some 7
        ∧ (afterReg (afterReg dEx 3) 7).eventDetect 5 = true
        ∧ deliverEdge (afterReg (afterReg dEx 3) 7) 5 = [7]
        ∧ (deliverEdge (afterReg dEx 3) 5).length ≤ 1) :=
  ⟨by decide, observer_registration_replaces (afterReg dEx 3) 7 5 (by decide)⟩

/-- C9: in the example's polling debounce, given a first accepted
pressed read at `t1`, a second pressed read at `t2` is delivered iff
it falls outside the debounce window: two reads within the window
yield exactly one delivered transition, two reads separated by more
than the window yield exactly two. -/
theorem poll_debounce_two_edges (l0 t1 t2 : Int)
    (h : t1 - l0 > debounce_ms) :
    (pollRun l0 [(t1, true), (t2, true)]).1
      = if t2 - t1 > debounce_ms then 2 else 1 := by
  have h1 : debounce_ms < t1 - l0 := h
  simp [pollRun, pollStep, List.foldl, h1]
  by_cases h2 : debounce_ms < t2 - t1
  · simp [h2]
  · simp [h2]

/-- C9 witness: reads at 1000 ms and 1100 ms (within the 200 ms
window) after a long-idle start. -/
theorem poll_debounce_two_edges_witness :
    ((1000 : Int) - 0 > debounce_ms)
    ∧ (pollRun 0 [(1000, true), (1100, true)]).1
        = if (1100 : Int) - 1000 > debounce_ms then 2 else 1 :=
  ⟨by decide, poll_debounce_two_edges 0 1000 1100 (by decide)⟩

end DisplayHatMiniLite
